import Mathlib

/-!
Shallow embedding of `omego/upgrade.py` (the OMERO install/upgrade
orchestrator) and proofs about the claims of its specification.

The embedding models the filesystem as a finite association of symlinks,
directory trees and plain files; platform calls (`os.unlink`, `os.symlink`,
`os.path.samefile`, `os.readlink`) become total Lean functions over that
model, raising errors through `Except`/`Option` where the Python calls
raise exceptions.
-/

namespace Omego

/-- Python `str.lower()` on ASCII strings, defined over the character list
so that it is kernel-executable. -/
def strLower (s : String) : String := String.mk (s.data.map Char.toLower)

/-- Exception classes relevant to the embedded code. `ioError` stands for
IOError (raised e.g. when opening the pointer sidecar file fails), which is
what the `except IOError` handler in `Install.directories` catches;
`osError` stands for OSError (raised by `os.unlink`, `os.symlink`,
`shutil.rmtree` and `os.readlink`). The code runs on Python 2 (it uses
`basestring`), where IOError and OSError are sibling classes, so an
`except IOError` clause does not catch OSError. -/
inductive ExcKind where
  | ioError
  | osError
deriving Repr, DecidableEq

/-- Run-level failures: `stop rc msg` models `raise Stop(rc, msg)`;
`exc k` models an uncaught ordinary exception; `exception msg` models a
plain `raise Exception(msg)`. -/
inductive RunErr where
  | stop (rc : Nat) (msg : String)
  | exc (k : ExcKind)
  | exception (msg : String)
deriving Repr, DecidableEq

/-- Observable side effects of a run, in the order they are performed. -/
inductive Effect where
  | rmtree (p : String)
  | unlink (p : String)
  | rmlink (p : String)
  | symlink (target link : String)
  | adminCmd (args : List String)
  | resolve (name : String)
  | zipLogs (src dst : String)
deriving Repr, DecidableEq

/-- Filesystem model: symlinks (link path, target path), directory trees
present, and plain files (path, byte content). Directory paths in `dirs`
are stored in canonical form, so path identity on them coincides with
`os.path.samefile` identity. -/
structure FS where
  symlinks : List (String × String)
  dirs : List String
  files : List (String × String)
deriving Repr, DecidableEq

def FS.lookupLink (fs : FS) (p : String) : Option String :=
  (fs.symlinks.find? (fun e => e.1 == p)).map (·.2)

def FS.lookupFile (fs : FS) (p : String) : Option String :=
  (fs.files.find? (fun e => e.1 == p)).map (·.2)

/-- `os.path.exists`: true if `p` is a symlink, a directory or a file. -/
def FS.pathExists (fs : FS) (p : String) : Bool :=
  (fs.lookupLink p).isSome || fs.dirs.contains p || (fs.lookupFile p).isSome

/-- Resolve one level of symlink indirection (identity of the underlying
directory). -/
def FS.resolve (fs : FS) (p : String) : String :=
  (fs.lookupLink p).getD p

def FS.removeDir (fs : FS) (p : String) : FS :=
  { fs with dirs := fs.dirs.filter (fun d => d != p) }

def FS.removeFile (fs : FS) (p : String) : FS :=
  { fs with files := fs.files.filter (fun e => e.1 != p) }

def FS.removeLink (fs : FS) (p : String) : FS :=
  { fs with symlinks := fs.symlinks.filter (fun e => e.1 != p) }

def FS.addLink (fs : FS) (link target : String) : FS :=
  { fs with symlinks := (link, target) :: fs.symlinks }

def FS.writeFile (fs : FS) (p content : String) : FS :=
  { fs with files := (p, content) :: (fs.removeFile p).files }

/-- `os.unlink`: removes a symlink or a plain file; raises OSError when the
path is missing or is a directory. `UnixInstall.rmlink` logs and re-raises,
so it has the same behaviour. -/
def rmlink (fs : FS) (p : String) : Except ExcKind FS :=
  if (fs.lookupLink p).isSome then .ok (fs.removeLink p)
  else if (fs.lookupFile p).isSome then .ok (fs.removeFile p)
  else .error .osError

/-- `os.symlink(targetdir, link)`: raises OSError when `link` already
exists. `UnixInstall.symlink` logs and re-raises, so it has the same
behaviour. -/
def symlinkCreate (fs : FS) (targetdir link : String) : Except ExcKind FS :=
  if fs.pathExists link then .error .osError
  else .ok (fs.addLink link targetdir)

/-- `os.path.samefile` (used by `UnixInstall.samedir`): identity of the
underlying directory after resolving symlinks; raises OSError when either
path does not exist. -/
def samedir (fs : FS) (targetdir link : String) : Except ExcKind Bool :=
  if fs.pathExists targetdir && fs.pathExists link then
    .ok (fs.resolve targetdir == fs.resolve link)
  else .error .osError

/-- Result of a (sub-)run: final filesystem, the effects performed in
order, and `none` on success or the error that aborted it. Effects already
performed before an abort stay in the trace. -/
structure Run where
  fs : FS
  trace : List Effect
  err : Option RunErr
deriving Repr, DecidableEq

/-- Tail of `Install.directories`: `self.rmlink(self.args.sym)` followed by
`self.symlink(self.dir, self.args.sym)`; both failures propagate (fatal). -/
def linkSwap (fs : FS) (dir sym : String) : FS × List Effect × Option RunErr :=
  match rmlink fs sym with
  | .error k => (fs, [], some (RunErr.exc k))
  | .ok fs2 =>
    match symlinkCreate fs2 dir sym with
    | .error k => (fs2, [Effect.rmlink sym], some (RunErr.exc k))
    | .ok fs3 => (fs3, [Effect.rmlink sym, Effect.symlink dir sym], none)

/-- Body of `Install.directories` after the readlink try/except: `target`
and `targetzip` are the values bound there (`None` when the read failed).
The two deletions are gated by `"false" == skip*.lower() and target`; their
own failures are caught (`except OSError`) and only logged, which the model
renders by making the removal a no-op when the artifact is absent. -/
def directoriesCleanup (target targetzip : Option String)
    (skipdelete skipdeletezip : String) (dir sym : String) (fs : FS) : Run :=
  let s1 : FS × List Effect :=
    match target with
    | some t =>
      if "false" == strLower skipdelete then (fs.removeDir t, [Effect.rmtree t])
      else (fs, [])
    | none => (fs, [])
  let s2 : FS × List Effect :=
    match targetzip with
    | some tz =>
      if "false" == strLower skipdeletezip then (s1.1.removeFile tz, [Effect.unlink tz])
      else (s1.1, [])
    | none => (s1.1, [])
  let s3 := linkSwap s2.1 dir sym
  { fs := s3.1, trace := s1.2 ++ s2.2 ++ s3.2.1, err := s3.2.2 }

/-- `Install.directories` (the switchover step). `samedirR` is the result
of the platform `self.samedir(self.dir, self.args.sym)` call, `readlinkR`
the outcome of `self.readlink(self.args.sym)`; a read failure raising
IOError (the sidecar open of `WindowsInstall.readlink`) is caught
(`except IOError`), logged, and leaves both `target` and `targetzip` as
`None`; a read failure raising OSError (what `os.readlink` in
`UnixInstall.readlink` raises on Python 2) is not caught and propagates,
aborting the step. On `samedirR` the method returns at once. -/
def directories (samedirR : Bool) (readlinkR : Except ExcKind String)
    (skipdelete skipdeletezip : String) (dir sym : String) (fs : FS) : Run :=
  if samedirR then { fs := fs, trace := [], err := none }
  else
    match readlinkR with
    | .ok t => directoriesCleanup (some t) (some (t ++ ".zip")) skipdelete skipdeletezip dir sym fs
    | .error k =>
      if k = ExcKind.ioError then
        directoriesCleanup none none skipdelete skipdeletezip dir sym fs
      else { fs := fs, trace := [], err := some (RunErr.exc k) }

/-- `Install.web`: `"false" == self.args.skipweb.lower()`. -/
def web (skipweb : String) : Bool := "false" == strLower skipweb

/-- Commands attempted by `Install.stop` (upgrade only): admin status and
stop, then `stopweb` when the web guard is enabled. Failures of either
block are caught and logged (best-effort), so the attempts themselves are
the observable behaviour. -/
def stopPhaseTrace (skipweb : String) : List Effect :=
  [Effect.adminCmd ["admin", "status", "--nodeonly"], Effect.adminCmd ["admin", "stop"]] ++
    (if web skipweb then [Effect.adminCmd ["web", "stop"]] else [])

/-- Commands issued by `Install.start`: `admin start`, then `startweb`
when the web guard is enabled. -/
def startPhaseTrace (skipweb : String) : List Effect :=
  [Effect.adminCmd ["admin", "start"]] ++
    (if web skipweb then [Effect.adminCmd ["web", "start"]] else [])

/-- State of the two configuration files handled by `Install.configure`:
`oldCfg` is the content of `<sym>/etc/grid/config.xml` (the previous
instance's file, `none` when absent), `target` the content of
`<dir>/etc/grid/config.xml`. `sameFileIdent` records whether the two paths
denote the same underlying file (`os.path.samefile`); `samefileAvailable`
records whether `os.path.samefile` exists on the platform (on Windows /
Python 2 it does not, and `samecontents` falls back to comparing the file
contents). -/
structure CfgState where
  oldCfg : Option String
  target : Option String
  sameFileIdent : Bool
  samefileAvailable : Bool
deriving Repr, DecidableEq

/-- `samecontents(a, b)` from `Install.configure`: `os.path.samefile` when
available (file identity), otherwise byte-content equality of the two
files. -/
def samecontents (st : CfgState) : Bool :=
  if st.samefileAvailable then st.sameFileIdent
  else st.oldCfg == st.target

/-- Copy/delete branch of `Install.configure`. With `copyold` set: missing
old configuration raises `Stop(40)`; when the destination exists and
`samecontents` holds the copy is skipped (`pass`); otherwise the old file
is copied over the destination. Without `copyold`, an existing destination
is deleted. Returns the new state and whether an actual copy was
performed. -/
def configureCopy (copyold : Bool) (st : CfgState) : Except RunErr (CfgState × Bool) :=
  if copyold then
    match st.oldCfg with
    | none => .error (RunErr.stop 40 "config.xml not found")
    | some _ =>
      if st.target.isSome && samecontents st then .ok (st, false)
      else .ok ({ st with target := st.oldCfg }, true)
  else
    match st.target with
    | some _ => .ok ({ st with target := none }, false)
    | none => .ok (st, false)

/-- One pre-start input as seen by the loop in `Install.configure`: the
raw argument `f`, and the `(ftype, fpath)` pair that
`fileutils.get_as_local_path(f, 'backup')` resolves it to. -/
structure PInput where
  name : String
  ftype : String
  fpath : String
deriving Repr, DecidableEq

/-- The pre-start loop of `Install.configure`: each input is resolved in
turn; a resolution whose type is not `'file'` raises
`Stop(50, 'Expected file, found: <ftype> <f>')` at once, so later inputs
are neither resolved nor replayed; otherwise `self.run(['load', fpath])`
is issued and the loop continues. -/
def prestart : List PInput → List Effect × Option RunErr
  | [] => ([], none)
  | i :: rest =>
    if i.ftype == "file" then
      let r := prestart rest
      (Effect.resolve i.name :: Effect.adminCmd ["load", i.fpath] :: r.1, r.2)
    else
      ([Effect.resolve i.name],
       some (RunErr.stop 50 ("Expected file, found: " ++ i.ftype ++ " " ++ i.name)))

/-- Splits a path on `/` separators (helper for `normpath`). -/
def splitSlashAux : List Char → List Char → List String
  | [], acc => [String.mk acc.reverse]
  | c :: cs, acc =>
    if c = '/' then String.mk acc.reverse :: splitSlashAux cs []
    else splitSlashAux cs (c :: acc)

/-- Splits a path on `/` separators. -/
def splitSlash (s : String) : List String := splitSlashAux s.data []

/-- Joins path components with `/`. -/
def joinSlash : List String → String
  | [] => ""
  | [x] => x
  | x :: xs => x ++ "/" ++ joinSlash xs

/-- Whether a path is absolute. -/
def isAbs (p : String) : Bool :=
  match p.data with
  | '/' :: _ => true
  | _ => false

/-- Component pass of `normpath`: drops empty and `.` components and
resolves `..` against the accumulated prefix. -/
def normSteps (absolute : Bool) : List String → List String → List String
  | acc, [] => acc.reverse
  | acc, c :: cs =>
    if c == "" || c == "." then normSteps absolute acc cs
    else if c == ".." then
      match acc with
      | [] => if absolute then normSteps absolute [] cs else normSteps absolute [".."] cs
      | a :: rest =>
        if a == ".." then normSteps absolute (".." :: a :: rest) cs
        else normSteps absolute rest cs
    else normSteps absolute (c :: acc) cs

/-- Model of `os.path.normpath` (posix flavour, without the double-slash
special case): collapses empty, `.` and `..` components. -/
def normpath (p : String) : String :=
  let body := joinSlash (normSteps (isAbs p) [] (splitSlash p))
  if isAbs p then "/" ++ body
  else if body == "" then "." else body

/-- Fallback branch of `WindowsInstall.symlink` (taken when `os.symlink`
raises AttributeError): after `win32file.CreateSymbolicLink(link,
targetdir, flag)` succeeds, the target path is written into the sidecar
file `'%s.target' % link` — `f.write(targetdir)` writes the path exactly
as passed, with no normalization and nothing else. -/
def winSymlinkFallback (fs : FS) (targetdir link : String) : FS :=
  (fs.addLink link targetdir).writeFile (link ++ ".target") targetdir

/-- Fallback branch of `WindowsInstall.readlink` (taken when `os.readlink`
raises AttributeError): reads the whole sidecar file and returns
`os.path.normpath` of its content; `none` when the sidecar is missing
(the IOError that `Install.directories` catches). -/
def winReadlinkFallback (fs : FS) (link : String) : Option String :=
  (fs.lookupFile (link ++ ".target")).map normpath

/-- The coarse phases of `Install.__init__`, in source order. A phase
token appears in a run's trace only when the corresponding action is
actually performed (e.g. `initDbPhase` only when `args.initdb` is set,
matching the guard inside `Install.init_db`). -/
inductive Phase where
  | getServerDir
  | createLink
  | setupCli
  | setupPreviousEnv
  | stopServer
  | archiveLogs
  | configurePhase
  | directoriesPhase
  | initDbPhase
  | upgradeDbPhase
  | saveEnv
  | startServer
deriving Repr, DecidableEq

/-- The parsed command-line options of `InstallBaseCommand` that the
orchestrator consumes (all `skip*` options are strings; `prefixVal`
models `args.prefix`). -/
structure Args where
  dry_run : Bool
  server : Option String
  prestartfile : List PInput
  ignoreconfig : Bool
  prefixVal : String
  registry : String
  tcp : String
  ssl : String
  sym : String
  skipweb : String
  skipdelete : String
  skipdeletezip : String
  savevars : String
  savevarsfile : String
  initdb : Bool
  upgradedb : Bool
  archivelogs : Option String
deriving Repr, DecidableEq

/-- Phases of an upgrade run after the archive-logs step. -/
def upgradeTail (args : Args) : List Phase :=
  [Phase.configurePhase, Phase.directoriesPhase] ++
    (if args.upgradedb then [Phase.upgradeDbPhase] else []) ++
    [Phase.saveEnv, Phase.startServer]

/-- `Install.__init__` at the phase level. The precondition check on
`args.sym` comes first: `upgrade` with the pointer absent, or `install`
with it present, raises `Stop(30, ...)` before any other phase runs.
`zipFails` is the outcome of the external `fileutils.zip` call inside
`archive_logs`; that call has no surrounding try/except, so its failure
propagates and aborts the run. `Install.stop` catches its own errors, so
the stop phase never aborts. -/
def installRun (cmd : String) (args : Args) (zipFails : Bool) (symExists : Bool) :
    List Phase × Option RunErr :=
  if cmd == "upgrade" then
    if !symExists then ([], some (RunErr.stop 30 ("Symlink is missing: " ++ args.sym)))
    else
      let pre := [Phase.getServerDir, Phase.setupCli, Phase.setupPreviousEnv, Phase.stopServer]
      match args.archivelogs with
      | none => (pre ++ upgradeTail args, none)
      | some _ =>
        if zipFails then (pre, some (RunErr.exc ExcKind.ioError))
        else (pre ++ [Phase.archiveLogs] ++ upgradeTail args, none)
  else if cmd == "install" then
    if symExists then ([], some (RunErr.stop 30 ("Symlink already exists: " ++ args.sym)))
    else
      ([Phase.getServerDir, Phase.createLink, Phase.setupCli, Phase.configurePhase,
        Phase.directoriesPhase] ++
        (if args.initdb then [Phase.initDbPhase] else []) ++
        (if args.upgradedb then [Phase.upgradeDbPhase] else []) ++
        [Phase.saveEnv, Phase.startServer], none)
  else ([], some (RunErr.exception ("Unexpected command: " ++ cmd)))

/-- One `%`-interpolation of a string option against the other options;
the default option templates reference only `%(prefix)s` and `%(sym)s`. -/
def subst (a : Args) (v : String) : String :=
  (v.replace "%(prefix)s" a.prefixVal).replace "%(sym)s" a.sym

/-- The post-processing loop of `InstallBaseCommand.__call__` that
`%`-interpolates every string option (booleans are skipped by the
`isinstance(value, basestring)` test). -/
def interpolate (a : Args) : Args :=
  { a with
    registry := subst a a.registry
    tcp := subst a a.tcp
    ssl := subst a a.ssl
    savevarsfile := subst a a.savevarsfile }

/-- Result of `InstallBaseCommand.__call__`: the interpolated options and,
unless the command returned early, the install/upgrade run performed by
the constructed installer. -/
structure CallResult where
  args : Args
  installerRun : Option (List Phase × Option RunErr)
deriving Repr, DecidableEq

/-- `InstallBaseCommand.__call__`: interpolate the options, return at once
on `--dry-run`, otherwise construct the platform installer (whose
`__init__` performs the whole run). -/
def callCommand (name : String) (a : Args) (zipFails symExists : Bool) : CallResult :=
  let a2 := interpolate a
  if a2.dry_run then { args := a2, installerRun := none }
  else { args := a2, installerRun := some (installRun name a2 zipFails symExists) }

/-- Default option values registered in `InstallBaseCommand.__init__`. -/
def defaultSkipweb : String := "false"

/-- Default for `skipdelete` (`Add(self.parser, "skipdelete", "true")`). -/
def defaultSkipdelete : String := "true"

/-- Default for `skipdeletezip`. -/
def defaultSkipdeletezip : String := "false"

/-- Default for `sym`. -/
def defaultSym : String := "OMERO-CURRENT"

/-- Fixture: an upgrade layout — stable pointer `OMERO-CURRENT` at the old
instance, old and new instance directories, the old server archive. -/
def fsUpgradeDemo : FS :=
  { symlinks := [("OMERO-CURRENT", "old")]
    dirs := ["old", "new"]
    files := [("old.zip", "zipbytes")] }

/-- Fixture: pointer present but its target unreadable. -/
def fsC5 : FS :=
  { symlinks := [("SYM", "old")], dirs := ["old", "new"], files := [] }

/-- Fixture: the pointer path is a plain directory — `os.path.exists`
succeeds and `samedir` is false, but `os.readlink` raises OSError. -/
def fsC5dir : FS :=
  { symlinks := [], dirs := ["old", "new", "SYM"], files := [] }

/-- Fixture: empty filesystem. -/
def fsEmpty : FS := { symlinks := [], dirs := [], files := [] }

/-- Fixture: a full option record with the defaults of
`InstallBaseCommand.__init__` and `--archivelogs /tmp/old.zip`. -/
def argsDemo : Args :=
  { dry_run := false
    server := some "OMERO.server.zip"
    prestartfile := []
    ignoreconfig := false
    prefixVal := ""
    registry := "4061"
    tcp := "4063"
    ssl := "4064"
    sym := "OMERO-CURRENT"
    skipweb := "false"
    skipdelete := "true"
    skipdeletezip := "false"
    savevars := "ICE_HOME PATH DYLD_LIBRARY_PATH LD_LIBRARY_PATH PYTHONPATH"
    savevarsfile := "OMERO-CURRENT/omero.envvars"
    initdb := false
    upgradedb := true
    archivelogs := some "/tmp/old.zip" }

/-- Fixture: configuration state on an upgrade before the pointer swap —
the old configuration exists, the new instance has none yet, the two
paths are distinct files, and `os.path.samefile` is available (posix). -/
def cfgDemo : CfgState :=
  { oldCfg := some "omero-config-bytes"
    target := none
    sameFileIdent := false
    samefileAvailable := true }

/-- Fixture: `cfgDemo` after the copy has been performed once. -/
def cfgDemoAfter : CfgState :=
  { oldCfg := some "omero-config-bytes"
    target := some "omero-config-bytes"
    sameFileIdent := false
    samefileAvailable := true }

/-- Fixture: same upgrade configuration state on a platform without
`os.path.samefile`. -/
def cfgDemoWin : CfgState :=
  { oldCfg := some "omero-config-bytes"
    target := none
    sameFileIdent := false
    samefileAvailable := false }

/-- Fixture: `cfgDemoWin` after the copy has been performed once. -/
def cfgDemoWinAfter : CfgState :=
  { oldCfg := some "omero-config-bytes"
    target := some "omero-config-bytes"
    sameFileIdent := false
    samefileAvailable := false }

/-- Fixture: a resolvable pre-start file input. -/
def pinFile : PInput := { name := "f1", ftype := "file", fpath := "/backup/f1" }

/-- Fixture: a pre-start input resolving to a directory. -/
def pinDir : PInput := { name := "f2", ftype := "directory", fpath := "/backup/f2" }

/-! Helper lemmas -/

theorem lookupLink_removeLink_self (fs : FS) (p : String) :
    (fs.removeLink p).lookupLink p = none := by
  have h : ∀ e ∈ fs.symlinks.filter (fun e => e.1 != p), ¬(e.1 == p) = true := by
    intro e he
    have h2 := (List.mem_filter.mp he).2
    simpa using h2
  simp [FS.removeLink, FS.lookupLink, List.find?_eq_none.mpr h]

theorem linkSwap_no_rmtree (fs : FS) (dir sym p : String) :
    Effect.rmtree p ∉ (linkSwap fs dir sym).2.1 := by
  unfold linkSwap
  cases hr : rmlink fs sym with
  | error k => simp
  | ok fs2 =>
    cases hs : symlinkCreate fs2 dir sym with
    | error k => simp [hs]
    | ok fs3 => simp [hs]

theorem linkSwap_no_unlink (fs : FS) (dir sym p : String) :
    Effect.unlink p ∉ (linkSwap fs dir sym).2.1 := by
  unfold linkSwap
  cases hr : rmlink fs sym with
  | error k => simp
  | ok fs2 =>
    cases hs : symlinkCreate fs2 dir sym with
    | error k => simp [hs]
    | ok fs3 => simp [hs]

theorem removeLink_dirs (fs : FS) (p : String) : (fs.removeLink p).dirs = fs.dirs := rfl

theorem removeLink_files (fs : FS) (p : String) : (fs.removeLink p).files = fs.files := rfl

theorem lookupFile_removeLink (fs : FS) (p q : String) :
    (fs.removeLink p).lookupFile q = fs.lookupFile q := rfl

theorem falseGuard_iff (s : String) : ("false" == strLower s) = true ↔ strLower s = "false" := by
  rw [beq_iff_eq]
  exact eq_comm

theorem rmtree_mem_directories_iff (t sd sz dir sym p : String) (fs : FS) :
    Effect.rmtree p ∈ (directories false (Except.ok t) sd sz dir sym fs).trace ↔
      (("false" == strLower sd) = true ∧ p = t) := by
  cases hB : ("false" == strLower sd) <;> cases hB2 : ("false" == strLower sz) <;>
    simp [directories, directoriesCleanup, hB, hB2, linkSwap_no_rmtree]

theorem unlink_mem_directories_iff (t sd sz dir sym p : String) (fs : FS) :
    Effect.unlink p ∈ (directories false (Except.ok t) sd sz dir sym fs).trace ↔
      (("false" == strLower sz) = true ∧ p = t ++ ".zip") := by
  cases hB : ("false" == strLower sd) <;> cases hB2 : ("false" == strLower sz) <;>
    simp [directories, directoriesCleanup, hB, hB2, linkSwap_no_unlink]

/-! Claim theorems -/

/-- Claim C1: when the platform samedir check reports that the new
directory and the current pointer target are the same underlying
directory, `Install.directories` returns at once — no directory deletion,
no archive deletion, no pointer removal or recreation; filesystem, effect
trace and outcome are untouched. -/
theorem c1_samedir_noop (readlinkR : Except ExcKind String)
    (skipdelete skipdeletezip dir sym : String) (fs : FS) :
    directories true readlinkR skipdelete skipdeletezip dir sym fs =
      { fs := fs, trace := [], err := none } := by
  simp [directories]

/-- Claim C2: install with the stable pointer already present, and upgrade
with it absent, abort with `Stop(30, ...)` before any phase runs — the
phase trace is empty, so no download, no directory mutation and no pointer
change happened. -/
theorem c2_precondition_abort (args : Args) (zipFails : Bool) :
    installRun "install" args zipFails true =
      ([], some (RunErr.stop 30 ("Symlink already exists: " ++ args.sym))) ∧
    installRun "upgrade" args zipFails false =
      ([], some (RunErr.stop 30 ("Symlink is missing: " ++ args.sym))) := by
  constructor <;> simp [installRun]

/-- Claim C3 (counterexample): an upgrade switchover with the default
option values (`skipdelete = "true"`, `skipdeletezip = "false"`) where the
new directory differs from the pointer target completes successfully
without ever deleting the previous instance's directory tree — `rmtree`
is not in the trace and the old directory is still present — refuting the
claim that directory deletion is the default behaviour. -/
theorem c3_default_delete_counterexample :
    (directories false (Except.ok "old") defaultSkipdelete defaultSkipdeletezip
        "new" defaultSym fsUpgradeDemo).err = none ∧
    Effect.rmtree "old" ∉
      (directories false (Except.ok "old") defaultSkipdelete defaultSkipdeletezip
        "new" defaultSym fsUpgradeDemo).trace ∧
    "old" ∈ (directories false (Except.ok "old") defaultSkipdelete defaultSkipdeletezip
        "new" defaultSym fsUpgradeDemo).fs.dirs := by
  decide

/-- Claim C3 (amended): with the default option values the previous
instance's directory tree is retained (`skipdelete` defaults to `"true"`)
while the previous archive zip is deleted (`skipdeletezip` defaults to
`"false"`); the directory tree is deleted only when `skipdelete` is set to
a value that lowercases to `"false"`. -/
theorem c3_default_retains_directory (t dir sym sd : String) (fs : FS) :
    Effect.rmtree t ∉
      (directories false (Except.ok t) defaultSkipdelete defaultSkipdeletezip
        dir sym fs).trace ∧
    Effect.unlink (t ++ ".zip") ∈
      (directories false (Except.ok t) defaultSkipdelete defaultSkipdeletezip
        dir sym fs).trace ∧
    (strLower sd = "false" →
      Effect.rmtree t ∈
        (directories false (Except.ok t) sd defaultSkipdeletezip dir sym fs).trace) := by
  have hT : strLower "true" = "true" := by decide
  have hF : strLower "false" = "false" := by decide
  refine ⟨?_, ?_, ?_⟩
  · simp [directories, directoriesCleanup, defaultSkipdelete, defaultSkipdeletezip,
      hT, hF, linkSwap_no_rmtree]
  · simp [directories, directoriesCleanup, defaultSkipdelete, defaultSkipdeletezip, hT, hF]
  · intro h
    simp [directories, directoriesCleanup, h, defaultSkipdeletezip, hF]

/-- Claim C3 (witness for the amended theorem). -/
theorem c3_default_retains_directory_witness :
    Effect.rmtree "old" ∈
      (directories false (Except.ok "old") "false" defaultSkipdeletezip
        "new" defaultSym fsUpgradeDemo).trace :=
  (c3_default_retains_directory "old" "new" defaultSym "false" fsUpgradeDemo).2.2 (by decide)

/-- Claim C4 (counterexample): on an upgrade with `--archivelogs` set, a
failure of the external `fileutils.zip` call aborts the run — the
orchestrator never reaches the configure phase — refuting the claim that
log archiving is best-effort. `Install.archive_logs` and its call site
have no exception handler. -/
theorem c4_archive_fatal_counterexample :
    installRun "upgrade" argsDemo true true =
      ([Phase.getServerDir, Phase.setupCli, Phase.setupPreviousEnv, Phase.stopServer],
        some (RunErr.exc ExcKind.ioError)) ∧
    Phase.configurePhase ∉ (installRun "upgrade" argsDemo true true).1 := by
  decide

/-- Claim C4 (amended): the log-archiving step is not best-effort — with
the archive-logs option set, a failure while zipping the previous
instance's log tree propagates and aborts the run before the configure
phase; only when the option is unset is the step a no-op and the run
proceeds. -/
theorem c4_archive_failure_aborts (args : Args) (a : String) (zipFails : Bool) :
    (args.archivelogs = some a →
      installRun "upgrade" args true true =
        ([Phase.getServerDir, Phase.setupCli, Phase.setupPreviousEnv, Phase.stopServer],
          some (RunErr.exc ExcKind.ioError))) ∧
    (args.archivelogs = none →
      installRun "upgrade" args zipFails true =
        ([Phase.getServerDir, Phase.setupCli, Phase.setupPreviousEnv, Phase.stopServer] ++
          upgradeTail args, none)) := by
  constructor
  · intro h
    simp [installRun, h]
  · intro h
    simp [installRun, h]

/-- Claim C4 (witness for the amended theorem). -/
theorem c4_archive_failure_aborts_witness :
    installRun "upgrade" argsDemo true true =
      ([Phase.getServerDir, Phase.setupCli, Phase.setupPreviousEnv, Phase.stopServer],
        some (RunErr.exc ExcKind.ioError)) ∧
    installRun "upgrade" { argsDemo with archivelogs := none } false true =
      ([Phase.getServerDir, Phase.setupCli, Phase.setupPreviousEnv, Phase.stopServer] ++
        upgradeTail { argsDemo with archivelogs := none }, none) :=
  ⟨(c4_archive_failure_aborts argsDemo "/tmp/old.zip" true).1 rfl,
   (c4_archive_failure_aborts { argsDemo with archivelogs := none } "/tmp/old.zip" false).2 rfl⟩

/-- Claim C10: with the dry-run option set, `InstallBaseCommand.__call__`
returns immediately after option interpolation — no installer is
constructed, so no precondition check, filesystem mutation, pointer change
or admin command occurs. -/
theorem c10_dry_run_no_installer (name : String) (a : Args) (zipFails symExists : Bool) :
    callCommand name { a with dry_run := true } zipFails symExists =
      { args := interpolate { a with dry_run := true }, installerRun := none } := by
  simp [callCommand, interpolate]

/-- Claim C5 (counterexample): a pointer-read failure raising OSError —
what `os.readlink` raises on Python 2, e.g. when the pointer path is a
plain directory, which passes the `os.path.exists` precondition and makes
`samedir` false — is not caught by the `except IOError` handler: the
switchover aborts with the error, performing no deletion but also never
removing or recreating the pointer, refuting the universal "the failure is
logged and not fatal ... the run proceeds to remove and recreate the
pointer". -/
theorem c5_osreadlink_fatal_counterexample :
    directories false (Except.error ExcKind.osError) "false" "false" "new" "SYM" fsC5dir =
      { fs := fsC5dir, trace := [], err := some (RunErr.exc ExcKind.osError) } := by
  decide

/-- Claim C5 (amended): the severity of a pointer-read failure in the
switchover depends on its exception class. A failure raising IOError (the
sidecar open of the emulated variant's `readlink`) is caught by the
`except IOError` handler, so it is non-fatal: both deletions are skipped
and the run proceeds to remove and recreate the pointer, leaving directory
trees and files untouched. A failure raising OSError (the native
`os.readlink` of the Unix variant, under Python 2) is not caught: it
propagates and aborts the switchover before any deletion or pointer
change. -/
theorem c5_readfail_severity (skipdelete skipdeletezip dir sym t0 : String) (fs : FS)
    (h1 : fs.lookupLink sym = some t0)
    (h2 : fs.dirs.contains sym = false)
    (h3 : fs.lookupFile sym = none) :
    (directories false (Except.error ExcKind.ioError) skipdelete skipdeletezip dir sym fs =
      { fs := (fs.removeLink sym).addLink sym dir,
        trace := [Effect.rmlink sym, Effect.symlink dir sym], err := none } ∧
     ((fs.removeLink sym).addLink sym dir).dirs = fs.dirs ∧
     ((fs.removeLink sym).addLink sym dir).files = fs.files) ∧
    directories false (Except.error ExcKind.osError) skipdelete skipdeletezip dir sym fs =
      { fs := fs, trace := [], err := some (RunErr.exc ExcKind.osError) } := by
  refine ⟨⟨?_, rfl, rfl⟩, by simp [directories]⟩
  have h2m : sym ∉ fs.dirs := by simpa using h2
  have e2 : (fs.removeLink sym).pathExists sym = false := by
    simp [FS.pathExists, lookupLink_removeLink_self, removeLink_dirs,
      lookupFile_removeLink, h2m, h3]
  have e3 : rmlink fs sym = Except.ok (fs.removeLink sym) := by
    simp [rmlink, h1]
  have e4 : symlinkCreate (fs.removeLink sym) dir sym =
      Except.ok ((fs.removeLink sym).addLink sym dir) := by
    simp [symlinkCreate, e2]
  simp [directories, directoriesCleanup, linkSwap, e3, e4]

/-- Claim C5 (witness for the amended theorem). -/
theorem c5_readfail_severity_witness :
    (directories false (Except.error ExcKind.ioError) "true" "false" "new" "SYM" fsC5 =
      { fs := (fsC5.removeLink "SYM").addLink "SYM" "new",
        trace := [Effect.rmlink "SYM", Effect.symlink "new" "SYM"], err := none } ∧
     ((fsC5.removeLink "SYM").addLink "SYM" "new").dirs = fsC5.dirs ∧
     ((fsC5.removeLink "SYM").addLink "SYM" "new").files = fsC5.files) ∧
    directories false (Except.error ExcKind.osError) "true" "false" "new" "SYM" fsC5 =
      { fs := fsC5, trace := [], err := some (RunErr.exc ExcKind.osError) } :=
  c5_readfail_severity "true" "false" "new" "SYM" "old" fsC5
    (by decide) (by decide) (by decide)

/-- Claim C6 (counterexample): on a platform where `os.path.samefile` is
available (identity comparison) and the old and new configuration files
are distinct files, a second `configure(copyOld=true)` call with no
intervening change does not detect content equality and performs the copy
again — the returned flag is `true` on both calls — refuting "the second
call detects equality and performs no copy". -/
theorem c6_second_copy_counterexample :
    configureCopy true cfgDemo = Except.ok (cfgDemoAfter, true) ∧
    configureCopy true cfgDemoAfter = Except.ok (cfgDemoAfter, true) :=
  ⟨rfl, rfl⟩

/-- Claim C6 (amended): running `configure(copyOld=true)` twice with no
intervening change to the source yields byte-identical destination
content and never errors; but the second call skips the actual copy only
when equality is detected — guaranteed when `os.path.samefile` is
unavailable (byte-content fallback) or when source and destination are the
same underlying file; when `os.path.samefile` is available and the two are
distinct files, the (content-preserving) copy is repeated. -/
theorem c6_second_call_content_stable (st st1 : CfgState) (b1 : Bool)
    (h : configureCopy true st = Except.ok (st1, b1)) :
    ∃ b2, configureCopy true st1 = Except.ok (st1, b2) ∧
      (st.samefileAvailable = false → b2 = false) := by
  cases hst : st.oldCfg with
  | none => simp [configureCopy, hst] at h
  | some x =>
    by_cases hc : (st.target.isSome && samecontents st) = true
    · simp only [configureCopy, hst, hc, if_true] at h
      obtain ⟨rfl, rfl⟩ : st = st1 ∧ false = b1 := by simpa using h
      exact ⟨false, by simp [configureCopy, hst, hc], fun _ => rfl⟩
    · simp only [configureCopy, hst, hc, if_false] at h
      obtain ⟨rfl, rfl⟩ :
          ({ oldCfg := some x, target := some x, sameFileIdent := st.sameFileIdent,
             samefileAvailable := st.samefileAvailable } : CfgState) = st1 ∧ b1 = true := by
        simpa using h
      by_cases ha : st.samefileAvailable = true
      · by_cases hs : st.sameFileIdent = true
        · exact ⟨false, by simp [configureCopy, samecontents, ha, hs],
            fun hfa => by simp [ha] at hfa⟩
        · exact ⟨true, by simp [configureCopy, samecontents, ha, hs],
            fun hfa => by simp [ha] at hfa⟩
      · exact ⟨false, by simp [configureCopy, samecontents, ha], fun _ => rfl⟩

/-- Claim C6 (witness for the amended theorem, on the byte-content
fallback platform). -/
theorem c6_second_call_content_stable_witness :
    ∃ b2, configureCopy true cfgDemoWinAfter = Except.ok (cfgDemoWinAfter, b2) ∧
      (cfgDemoWin.samefileAvailable = false → b2 = false) :=
  c6_second_call_content_stable cfgDemoWin cfgDemoWinAfter true rfl

/-- Claim C7: pre-start inputs are resolved and replayed strictly in list
order — when every input resolves to a local plain file, one `load` admin
command is issued per input, in order; when an input does not resolve to a
file, the run aborts at that input with `Stop(50)` naming it, before any
later input is resolved or replayed. -/
theorem c7_prestart_order :
    (∀ l : List PInput, (∀ j ∈ l, j.ftype = "file") →
      prestart l =
        (l.flatMap (fun j => [Effect.resolve j.name, Effect.adminCmd ["load", j.fpath]]),
         none)) ∧
    (∀ (pre rest : List PInput) (i : PInput),
      (∀ j ∈ pre, j.ftype = "file") → i.ftype ≠ "file" →
      prestart (pre ++ i :: rest) =
        (pre.flatMap (fun j => [Effect.resolve j.name, Effect.adminCmd ["load", j.fpath]]) ++
          [Effect.resolve i.name],
         some (RunErr.stop 50 ("Expected file, found: " ++ i.ftype ++ " " ++ i.name)))) := by
  constructor
  · intro l hl
    induction l with
    | nil => rfl
    | cons j js ih =>
      have hj : j.ftype = "file" := hl j (by simp)
      have hjs : ∀ x ∈ js, x.ftype = "file" := fun x hx => hl x (by simp [hx])
      simp [prestart, hj, ih hjs]
  · intro pre rest i hpre hi
    induction pre with
    | nil => simp [prestart, hi]
    | cons j js ih =>
      have hj : j.ftype = "file" := hpre j (by simp)
      have hjs : ∀ x ∈ js, x.ftype = "file" := fun x hx => hpre x (by simp [hx])
      simp [prestart, hj, ih hjs]

/-- Claim C7 (witness): `[file, directory]` issues the load for the first
input, then aborts with `Stop(50)` naming the second. -/
theorem c7_prestart_order_witness :
    prestart ([pinFile] ++ pinDir :: []) =
      ([pinFile].flatMap (fun j => [Effect.resolve j.name, Effect.adminCmd ["load", j.fpath]]) ++
        [Effect.resolve pinDir.name],
       some (RunErr.stop 50 ("Expected file, found: " ++ pinDir.ftype ++ " " ++ pinDir.name))) :=
  c7_prestart_order.2 [pinFile] [] pinDir (by decide) (by decide)

/-- Claim C8 (counterexample): after the fallback create with target
`"a/./b"`, the sidecar file contains exactly `"a/./b"` — the raw, not the
normalized, target path — while `read` returns the normalized `"a/b"`;
refuting "the sidecar contains exactly the normalized target directory
path". -/
theorem c8_sidecar_counterexample :
    (winSymlinkFallback fsEmpty "a/./b" "SYM").lookupFile ("SYM" ++ ".target") =
      some "a/./b" ∧
    winReadlinkFallback (winSymlinkFallback fsEmpty "a/./b" "SYM") "SYM" = some "a/b" ∧
    ("a/./b" : String) ≠ "a/b" := by
  decide

/-- Claim C8 (amended): after `create(target, linkPath)` succeeds via the
fallback path, the sidecar file at `<linkPath>.target` contains exactly
the target directory path as passed (unnormalized) and nothing else, and
`read(linkPath)` normalizes it, returning the normalized target path. -/
theorem c8_sidecar_raw_read_normalized (fs : FS) (targetdir link : String) :
    (winSymlinkFallback fs targetdir link).lookupFile (link ++ ".target") = some targetdir ∧
    winReadlinkFallback (winSymlinkFallback fs targetdir link) link =
      some (normpath targetdir) := by
  constructor
  · simp [winSymlinkFallback, FS.writeFile, FS.addLink, FS.lookupFile]
  · simp [winReadlinkFallback, winSymlinkFallback, FS.writeFile, FS.addLink, FS.lookupFile]

/-- Claim C9: the `skipweb`, `skipdelete` and `skipdeletezip` options are
strings, and each guarded step — web stop, web start, old-directory
deletion, old-archive deletion — is performed if and only if its option
lowercases to exactly `"false"`; any other value (`"no"`, `"0"`, `""`,
...) disables the step. -/
theorem c9_skip_option_guards (sw sd sz dir sym t : String) (fs : FS) :
    (Effect.adminCmd ["web", "stop"] ∈ stopPhaseTrace sw ↔ strLower sw = "false") ∧
    (Effect.adminCmd ["web", "start"] ∈ startPhaseTrace sw ↔ strLower sw = "false") ∧
    (Effect.rmtree t ∈ (directories false (Except.ok t) sd sz dir sym fs).trace ↔
      strLower sd = "false") ∧
    (Effect.unlink (t ++ ".zip") ∈ (directories false (Except.ok t) sd sz dir sym fs).trace ↔
      strLower sz = "false") := by
  refine ⟨?_, ?_, ?_, ?_⟩
  · rw [← falseGuard_iff]
    cases hB : ("false" == strLower sw) <;> simp [stopPhaseTrace, web, hB]
  · rw [← falseGuard_iff]
    cases hB : ("false" == strLower sw) <;> simp [startPhaseTrace, web, hB]
  · rw [← falseGuard_iff, rmtree_mem_directories_iff]
    simp
  · rw [← falseGuard_iff, unlink_mem_directories_iff]
    simp

end Omego
